import Mathlib

/-!
Verification development for the gMeterTestAssistant pipeline
(web scraper → BDD scenario generator → test-code generator → test runner
→ report).  Python strings are modelled as `List Char`; exceptions as
`Except`; the external process / HTTP boundary as explicit outcome values.
Character-class operations (`lower`, `upper`, `isdigit`, the regexes over
`[a-zA-Z0-9_]`) act on ASCII exactly as the Python source does; the source
only ever applies them at points where the data is ASCII or where only the
ASCII behaviour matters for the properties proved here.
-/

namespace GMeter

/-- Python strings, modelled as lists of unicode scalar values. -/
abbrev PyStr := List Char

/-- Python `needle in hay` substring test. -/
def containsSub (needle : PyStr) : PyStr → Bool
  | [] => needle.isEmpty
  | c :: rest => needle.isPrefixOf (c :: rest) || containsSub needle rest

/-- Python whitespace (the ASCII characters stripped by `str.strip` and
split on by `str.split()`). -/
def pyIsSpace (c : Char) : Bool :=
  c == ' ' || c == '\t' || c == '\n' || c == '\r' || c == '\x0b' || c == '\x0c'

/-- Remove trailing characters satisfying `p` (helper for `pyStrip`). -/
def rdropWhileP (p : Char → Bool) : PyStr → PyStr
  | [] => []
  | c :: rest =>
    match rdropWhileP p rest with
    | [] => if p c then [] else [c]
    | r => c :: r

/-- Python `str.strip()`: drop leading and trailing whitespace. -/
def pyStrip (l : PyStr) : PyStr := rdropWhileP pyIsSpace (l.dropWhile pyIsSpace)

/-- Python `str.strip('_')`. -/
def stripUnderscores (l : PyStr) : PyStr :=
  rdropWhileP (· == '_') (l.dropWhile (· == '_'))

/-- Python `str.lower()` (ASCII letters; see the module comment). -/
def pyLower (l : PyStr) : PyStr := l.map Char.toLower

/-- Python `str.upper()` (ASCII letters; see the module comment). -/
def pyUpper (l : PyStr) : PyStr := l.map Char.toUpper

/-- Split a string at each character satisfying `p` (Python
`str.split(sep)` for a one-character separator keeps empty pieces). -/
def splitOnP (p : Char → Bool) : PyStr → List PyStr
  | [] => [[]]
  | c :: rest =>
    match splitOnP p rest with
    | [] => [[]]
    | l :: ls => if p c then [] :: l :: ls else (c :: l) :: ls

/-- Python `s.split('\n')`. -/
def splitNl (l : PyStr) : List PyStr := splitOnP (· == '\n') l

/-- Python `s.split()`: split on whitespace runs, dropping empty pieces. -/
def pyTokens (l : PyStr) : List PyStr :=
  (splitOnP pyIsSpace l).filter (fun t => !t.isEmpty)

/-- Python `s.split(sep)` for a non-empty multi-character separator:
non-overlapping, left-to-right. -/
def splitOnSub (sep : PyStr) : PyStr → List PyStr
  | [] => [[]]
  | c :: rest =>
    if sep.isPrefixOf (c :: rest) && !sep.isEmpty then
      match splitOnSub sep (rest.drop (sep.length - 1)) with
      | [] => [[], []]
      | ls => [] :: ls
    else
      match splitOnSub sep rest with
      | [] => [[c]]
      | l :: ls => (c :: l) :: ls
termination_by l => l.length
decreasing_by
  · simp only [List.length_cons]
    have := List.length_drop (sep.length - 1) rest
    omega
  · simp

/-- Python `s.replace(pat, rep)` for a non-empty pattern: replace every
non-overlapping occurrence, left to right. -/
def replaceSub (pat rep : PyStr) : PyStr → PyStr
  | [] => []
  | c :: rest =>
    if pat.isPrefixOf (c :: rest) && !pat.isEmpty then
      rep ++ replaceSub pat rep (rest.drop (pat.length - 1))
    else
      c :: replaceSub pat rep rest
termination_by l => l.length
decreasing_by
  · simp only [List.length_cons]
    have := List.length_drop (pat.length - 1) rest
    omega
  · simp

/-- Python `str.startswith` for a pair of alternatives. -/
def startsWithEither (a b : PyStr) (l : PyStr) : Bool :=
  a.isPrefixOf l || b.isPrefixOf l

/-- ASCII digit test (`[0-9]`, also Python `str.isdigit` on the ASCII data
this model feeds it). -/
def pyIsDigit (c : Char) : Bool := 48 ≤ c.toNat && c.toNat ≤ 57

/-- Character class `[a-zA-Z0-9_]` of the regex in
`TestGenerator._clean_method_name`. -/
def wordChar (c : Char) : Bool :=
  (65 ≤ c.toNat && c.toNat ≤ 90) || (97 ≤ c.toNat && c.toNat ≤ 122) ||
  (48 ≤ c.toNat && c.toNat ≤ 57) || c.toNat == 95

/-- Character class `[a-z0-9_]`. -/
def identBodyChar (c : Char) : Bool :=
  (97 ≤ c.toNat && c.toNat ≤ 122) || (48 ≤ c.toNat && c.toNat ≤ 57) ||
  c.toNat == 95

/-- Character class `[a-z_]`. -/
def identHeadChar (c : Char) : Bool :=
  (97 ≤ c.toNat && c.toNat ≤ 122) || c.toNat == 95

/-- Matcher for the anchored regex `^[a-z_][a-z0-9_]*$`. -/
def matchesIdentRegex : PyStr → Bool
  | [] => false
  | c :: rest => identHeadChar c && rest.all identBodyChar

/-- Step 1 of `_clean_method_name`: `re.sub(r'["\']', '', name)`. -/
def stripQuoteChars (l : PyStr) : PyStr :=
  l.filter (fun c => !(c == '"' || c == '\''))

/-- Step 2 of `_clean_method_name`: `re.sub(r'[^a-zA-Z0-9_]', '_', name)`. -/
def underscoreNonWord (l : PyStr) : PyStr :=
  l.map (fun c => if wordChar c then c else '_')

/-- Step 3 of `_clean_method_name`: `re.sub(r'_+', '_', name)` — in every
run of underscores all but the last are dropped. -/
def collapseUnderscores : PyStr → PyStr
  | [] => []
  | c :: rest =>
    if c == '_' && rest.head? == some '_' then collapseUnderscores rest
    else c :: collapseUnderscores rest

/-- Step 5 of `_clean_method_name`: `if not name or name[0].isdigit():
name = f"test_case_{name}"`. -/
def prependIfInvalid (l : PyStr) : PyStr :=
  match l with
  | [] => "test_case_".data
  | c :: _ => if pyIsDigit c then "test_case_".data ++ l else l

/-- Model of `TestGenerator._clean_method_name` (source order: quote strip,
non-word to underscore, collapse runs, strip edge underscores, prepend on
empty/digit head, lowercase last). -/
def clean_method_name (name : PyStr) : PyStr :=
  pyLower (prependIfInvalid (stripUnderscores
    (collapseUnderscores (underscoreNonWord (stripQuoteChars name)))))

/-- C4's spec wording lists lowercasing before the empty/digit-head
prepend step; this definition follows that order so it can be compared
with the source-order `clean_method_name`. -/
def clean_method_name_specOrder (name : PyStr) : PyStr :=
  prependIfInvalid (pyLower (stripUnderscores
    (collapseUnderscores (underscoreNonWord (stripQuoteChars name)))))

/-! Data model of `bdd_generator.py`. -/

/-- Model of the `BDDScenario` dataclass. -/
structure BDDScenario where
  feature : PyStr
  scenario : PyStr
  given : List PyStr
  whens : List PyStr
  thens : List PyStr
  tags : List PyStr
  priority : PyStr
  test_type : PyStr
deriving DecidableEq, Repr

/-- Model of the `BDDFeature` dataclass. -/
structure BDDFeature where
  name : PyStr
  description : PyStr
  scenarios : List BDDScenario
  background : Option PyStr := none
  tags : List PyStr := []
deriving DecidableEq, Repr

/-! Model of `BDDGenerator._parse_scenario_block`. -/

/-- The stripped, non-blank lines of a scenario block
(`[line.strip() for line in block.split('\n') if line.strip()]`). -/
def scenLines (block : PyStr) : List PyStr :=
  ((splitNl block).map pyStrip).filter (fun l => !l.isEmpty)

/-- Step-classification state of the line loop in
`_parse_scenario_block`: the three step lists and `current_type`. -/
structure ParseState where
  given : List PyStr
  whens : List PyStr
  thens : List PyStr
  cur : Option (Fin 3)
deriving DecidableEq, Repr

/-- Keyword text dropped from a recognised step line:
`line.replace(a, '').replace(b, '').strip()`. -/
def dropKeywords (a b line : PyStr) : PyStr :=
  pyStrip (replaceSub b [] (replaceSub a [] line))

/-- One iteration of the `for line in lines[1:]` loop of
`_parse_scenario_block` (the bilingual `elif` chain). -/
def classifyLine (st : ParseState) (line : PyStr) : ParseState :=
  let l := pyStrip line
  if startsWithEither "Diyelim ki".data "Given".data l then
    { st with given := st.given ++ [dropKeywords "Diyelim ki".data "Given".data l],
              cur := some 0 }
  else if startsWithEither "Ve".data "And".data l && (st.cur == some 0) then
    { st with given := st.given ++ [dropKeywords "Ve".data "And".data l] }
  else if startsWithEither "Eğer".data "When".data l then
    { st with whens := st.whens ++ [dropKeywords "Eğer".data "When".data l],
              cur := some 1 }
  else if startsWithEither "Ve".data "And".data l && (st.cur == some 1) then
    { st with whens := st.whens ++ [dropKeywords "Ve".data "And".data l] }
  else if startsWithEither "O zaman".data "Then".data l then
    { st with thens := st.thens ++ [dropKeywords "O zaman".data "Then".data l],
              cur := some 2 }
  else if startsWithEither "Ve".data "And".data l && (st.cur == some 2) then
    { st with thens := st.thens ++ [dropKeywords "Ve".data "And".data l] }
  else
    st

/-- Model of `BDDGenerator._parse_scenario_block`. -/
def parse_scenario_block (block feature_name : PyStr) : Option BDDScenario :=
  match scenLines block with
  | [] => none
  | name :: rest =>
    let st := rest.foldl classifyLine ⟨[], [], [], none⟩
    some { feature := feature_name, scenario := name,
           given := st.given, whens := st.whens, thens := st.thens,
           tags := ["@automated".data], priority := "medium".data,
           test_type := "functional".data }

/-- A line is a recognisable step starter when it begins with one of the
six Given/When/Then keywords (a bare `Ve`/`And` line is a continuation
and is only recognised while a run is active). -/
def startsStep (l : PyStr) : Bool :=
  startsWithEither "Diyelim ki".data "Given".data l ||
  startsWithEither "Eğer".data "When".data l ||
  startsWithEither "O zaman".data "Then".data l

/-! Model of `BDDGenerator._generate_form_scenarios`. -/

/-- A field record of the analysis data consumed by the form-scenario
generator (`field['name']`, truthiness of `field.get('required')`). -/
structure FieldInfo where
  name : PyStr
  required : Bool
deriving DecidableEq, Repr

/-- A form record of the analysis data (`form.get('id')` may be absent;
`form.get('fields')` models missing/empty as `[]`). -/
structure FormInfo where
  id : Option PyStr
  fields : List FieldInfo
deriving DecidableEq, Repr

/-- The positive-submission scenario emitted for a form. -/
def positiveFormScenario (form_name : PyStr) : BDDScenario :=
  { feature := "Form İşlemleri".data,
    scenario := form_name ++ " formunu başarıyla doldur ve gönder".data,
    given := ["Kullanıcı ".data ++ form_name ++ " formunu içeren sayfadadır".data],
    whens := ["Kullanıcı tüm zorunlu alanları geçerli verilerle doldurur".data,
              "Kullanıcı gönder butonuna tıklar".data],
    thens := ["Form başarıyla gönderilir".data,
              "Başarı mesajı görüntülenir".data],
    tags := ["@form".data, "@positive".data],
    priority := "high".data,
    test_type := "functional".data }

/-- The negative scenario emitted for one required field of a form. -/
def negativeFormScenario (form_name field_name : PyStr) : BDDScenario :=
  { feature := "Form Validasyonu".data,
    scenario := field_name ++ " alanı boş bırakıldığında hata mesajı görüntülenir".data,
    given := ["Kullanıcı ".data ++ form_name ++ " formunu içeren sayfadadır".data],
    whens := ["Kullanıcı ".data ++ field_name ++ " alanını boş bırakır".data,
              "Kullanıcı gönder butonuna tıklar".data],
    thens := ["Form gönderilmez".data,
              field_name ++ " alanı için hata mesajı görüntülenir".data],
    tags := ["@form".data, "@validation".data, "@negative".data],
    priority := "medium".data,
    test_type := "validation".data }

/-- Loop body of `_generate_form_scenarios`: `scenarios` is the
accumulator (its length at entry feeds the `form_{len(scenarios)}`
default name). -/
def formScenariosLoop : List FormInfo → List BDDScenario → List BDDScenario
  | [], acc => acc
  | f :: rest, acc =>
    if f.fields.isEmpty then formScenariosLoop rest acc
    else
      let form_name := f.id.getD ("form_".data ++ (toString acc.length).data)
      let negs := (f.fields.filter (·.required)).map
        (fun fld => negativeFormScenario form_name fld.name)
      formScenariosLoop rest (acc ++ positiveFormScenario form_name :: negs)

/-- Model of `BDDGenerator._generate_form_scenarios`. -/
def generate_form_scenarios (forms : List FormInfo) : List BDDScenario :=
  formScenariosLoop forms []

/-! Model of `BDDGenerator._generate_navigation_scenarios`. -/

/-- A link record of the analysis data: `href` (empty models
missing/empty, both falsy), `is_external` (default `False`), `text`. -/
structure LinkInfo where
  href : PyStr
  is_external : Bool
  text : PyStr
deriving DecidableEq, Repr

/-- Filter of "important" links: truthy `href`, not external, and not a
`javascript:`/`mailto:`/`tel:` target. -/
def qualifiesLink (link : LinkInfo) : Bool :=
  !link.href.isEmpty && !link.is_external &&
  !("javascript:".data.isPrefixOf link.href ||
    "mailto:".data.isPrefixOf link.href ||
    "tel:".data.isPrefixOf link.href)

/-- The click-and-verify scenario emitted for one important link. -/
def navScenario (link : LinkInfo) : BDDScenario :=
  { feature := "Navigasyon".data,
    scenario := "'".data ++ link.text ++ "' linkine tıklama".data,
    given := ["Kullanıcı ana sayfadadır".data],
    whens := ["Kullanıcı '".data ++ link.text ++ "' linkine tıklar".data],
    thens := ["Yeni sayfa yüklenir".data,
              "Sayfa başarıyla görüntülenir".data],
    tags := ["@navigation".data, "@link".data],
    priority := "low".data,
    test_type := "functional".data }

/-- Model of `BDDGenerator._generate_navigation_scenarios`
(filter the important links, loop over the first five). -/
def generate_navigation_scenarios (links : List LinkInfo) : List BDDScenario :=
  ((links.filter qualifiesLink).take 5).map navScenario

/-! Model of `TestGenerator._generate_test_steps` and its helpers
(`test_generator.py`). -/

/-- The tail after the first occurrence of the quote character `q`. -/
def afterFirstChar (q : Char) : PyStr → Option PyStr
  | [] => none
  | c :: rest => if c == q then some rest else afterFirstChar q rest

/-- The characters up to (excluding) the next occurrence of `q`; `none`
when `q` never occurs. -/
def upToChar (q : Char) : PyStr → Option PyStr
  | [] => none
  | c :: rest => if c == q then some [] else (upToChar q rest).map (c :: ·)

/-- First group of `re.search` for a quoted run (`'([^']*)'` or its
double-quote twin): the text between the first quote and the next one. -/
def firstQuoted (q : Char) (l : PyStr) : Option PyStr :=
  (afterFirstChar q l).bind (upToChar q)

/-- Model of `TestGenerator._extract_button_text` (single quotes first,
double quotes second, else the empty string). -/
def extract_button_text (step : PyStr) : PyStr :=
  match firstQuoted '\'' step with
  | some t => t
  | none =>
    match firstQuoted '"' step with
    | some t => t
    | none => []

/-- Model of `TestGenerator._extract_link_text` (same body as
`_extract_button_text` in the source). -/
def extract_link_text (step : PyStr) : PyStr :=
  match firstQuoted '\'' step with
  | some t => t
  | none =>
    match firstQuoted '"' step with
    | some t => t
    | none => []

/-- Lines emitted for one Given step: the echo comment, plus a fixture
note when the step mentions `sayfa`. -/
def givenStepLines (step : PyStr) : List PyStr :=
  ("            # Given: ".data ++ step) ::
    (if containsSub "sayfa".data (pyLower step) then
      ["            # Page is already loaded in fixture".data]
    else [])

/-- Lines emitted for one When step: the echo comment, plus the canned
automation call chosen by the bilingual keyword chain. -/
def whenStepLines (step : PyStr) : List PyStr :=
  let ls := pyLower step
  ("            # When: ".data ++ step) ::
    (if containsSub "tıkla".data ls || containsSub "click".data ls then
      (if containsSub "buton".data ls || containsSub "button".data ls then
        (let bt := extract_button_text step
         if !bt.isEmpty then
           ["            page.click_button(page.BUTTON_".data ++
             replaceSub [' '] ['_'] (pyUpper bt) ++ ")".data]
         else
           ["            page.click_button((By.TAG_NAME, 'button'))".data])
       else if containsSub "link".data ls then
        (let lt := extract_link_text step
         if !lt.isEmpty then
           ["            page.click_link('".data ++ lt ++ "')".data]
         else
           ["            page.click_link('Test Link')".data])
       else [])
     else if containsSub "doldur".data ls || containsSub "fill".data ls then
       ["            page.fill_form(\x7b'field_name': 'test_value'\x7d)".data]
     else if containsSub "gir".data ls || containsSub "enter".data ls then
       ["            page.fill_form(\x7b'input_field': 'test_data'\x7d)".data]
     else [])

/-- Lines emitted for one Then step: the echo comment and the fixed
generic comment — nothing else. -/
def thenStepLines (step : PyStr) : List PyStr :=
  ["            # Then: ".data ++ step,
   "            # Then: Beklenen işlem yapılır".data]

/-- The `code_lines` list built by `_generate_test_steps`: the Given,
When and Then loops run in that order. -/
def testStepLines (s : BDDScenario) : List PyStr :=
  s.given.flatMap givenStepLines ++ s.whens.flatMap whenStepLines ++
    s.thens.flatMap thenStepLines

/-- Model of `TestGenerator._generate_test_steps`
(`'\n'.join(code_lines)`). -/
def generate_test_steps (s : BDDScenario) : PyStr :=
  List.intercalate ['\n'] (testStepLines s)

/-! Model of `TestGenerator._parse_test_results` and
`TestGenerator.run_tests`.  Durations are modelled as exact rationals:
the decimal value the Python source parses with `float(...)`. -/

/-- Model of the `TestResult` dataclass. -/
structure TestResult where
  test_name : PyStr
  status : PyStr
  duration : ℚ
  error_message : Option PyStr
  logs : List PyStr
deriving DecidableEq, Repr

/-- A pytest output line counts as a test result line when it contains
`::test_` and one of the three status tokens. -/
def isResultLine (line : PyStr) : Bool :=
  containsSub "::test_".data line &&
  (containsSub "PASSED".data line || containsSub "FAILED".data line ||
   containsSub "SKIPPED".data line)

/-- `line.split('::')[-1].split()[0]`; `none` models the `IndexError`
that the `except` clause turns into `continue`. -/
def extractTestName (line : PyStr) : Option PyStr :=
  match pyTokens ((splitOnSub "::".data line).getLastD []) with
  | [] => none
  | t :: _ => some t

/-- The `PASSED`/`FAILED`/`SKIPPED` chain of `_parse_test_results`. -/
def extractStatus (line : PyStr) : PyStr :=
  if containsSub "PASSED".data line then "passed".data
  else if containsSub "FAILED".data line then "failed".data
  else if containsSub "SKIPPED".data line then "skipped".data
  else "unknown".data

/-- Maximal digit run at the front of a string, with the remainder. -/
def takeDigits : PyStr → PyStr × PyStr
  | [] => ([], [])
  | c :: rest =>
    if pyIsDigit c then
      let (ds, t) := takeDigits rest
      (c :: ds, t)
    else ([], c :: rest)

/-- A match of the regex `(\d+\.?\d*)s` anchored at the front of the
string: the captured group, or `none`.  (With the greedy `\d+`/`\d*`
runs maximal, a match here needs the digits — optionally dot and more
digits — to be followed directly by `s`; backtracking cannot succeed
otherwise, as a shorter digit run is still followed by a digit.) -/
def durMatchAt (l : PyStr) : Option PyStr :=
  match takeDigits l with
  | ([], _) => none
  | (ds, t) =>
    match t with
    | '.' :: t2 =>
      (match takeDigits t2 with
       | (ds2, 's' :: _) => some (ds ++ '.' :: ds2)
       | _ => none)
    | 's' :: _ => some ds
    | _ => none

/-- `re.search(r'(\d+\.?\d*)s', line)`: the leftmost match's group. -/
def findDurStr : PyStr → Option PyStr
  | [] => none
  | c :: rest =>
    match durMatchAt (c :: rest) with
    | some g => some g
    | none => findDurStr rest

/-- Numeric value of a digit run. -/
def digitsToNat (ds : PyStr) : Nat :=
  ds.foldl (fun n c => 10 * n + (c.toNat - 48)) 0

/-- Exact decimal value of a captured duration group (`float(...)` in
the source). -/
def decimalToRat (g : PyStr) : ℚ :=
  match takeDigits g with
  | (intp, '.' :: fracp) =>
    (digitsToNat intp : ℚ) + (digitsToNat fracp : ℚ) / ((10 : ℚ) ^ fracp.length)
  | (intp, _) => (digitsToNat intp : ℚ)

/-- The duration extraction of `_parse_test_results`: `0.0` unless the
line contains `s` and the regex finds a match. -/
def extractDuration (line : PyStr) : ℚ :=
  if containsSub "s".data line then
    match findDurStr line with
    | some g => decimalToRat g
    | none => 0
  else 0

/-- One iteration of the line loop of `_parse_test_results`: `none`
models both a non-result line and the caught per-line parse failure. -/
def parseResultLine (line : PyStr) : Option TestResult :=
  if isResultLine line then
    match extractTestName line with
    | none => none
    | some nm =>
      let status := extractStatus line
      some { test_name := nm, status := status,
             duration := extractDuration line,
             error_message := if status == "passed".data then none
               else some ("Test ".data ++ status),
             logs := [] }
  else none

/-- The synthetic outcome appended when no test result line parsed. -/
def noTestsFound : TestResult :=
  { test_name := "no_tests_found".data, status := "skipped".data,
    duration := 0,
    error_message := some "No tests were discovered or executed".data,
    logs := [] }

/-- Model of `TestGenerator._parse_test_results`
(`output = stdout + "\n" + stderr`, line loop, dummy fallback). -/
def parse_test_results (stdout stderr : PyStr) : List TestResult :=
  let results := (splitNl (stdout ++ '\n' :: stderr)).filterMap parseResultLine
  if results.isEmpty then [noTestsFound] else results

/-- Model of the `TestSuite` dataclass (times as rationals). -/
structure TestSuite where
  name : PyStr
  tests : List TestResult
  start_time : ℚ
  end_time : ℚ
  total_duration : ℚ
  passed_count : Nat
  failed_count : Nat
  skipped_count : Nat
deriving DecidableEq, Repr

/-- Outcome of the `subprocess.run(cmd, ..., timeout=300)` boundary:
the process completed with captured output, raised
`subprocess.TimeoutExpired`, or raised some other launch error. -/
inductive PytestOutcome where
  | completed (stdout stderr : PyStr)
  | timedOut
  | launchError (msg : PyStr)
deriving DecidableEq, Repr

/-- Model of `TestGenerator.run_tests`: the three `try`/`except` paths.
The function is total — no failure escapes this boundary. -/
def run_tests (outcome : PytestOutcome) (start_time end_time : ℚ) : TestSuite :=
  match outcome with
  | .completed stdout stderr =>
    let rs := parse_test_results stdout stderr
    { name := "Website Tests".data, tests := rs,
      start_time := start_time, end_time := end_time,
      total_duration := end_time - start_time,
      passed_count := (rs.filter (fun t => t.status == "passed".data)).length,
      failed_count := (rs.filter (fun t => t.status == "failed".data)).length,
      skipped_count := (rs.filter (fun t => t.status == "skipped".data)).length }
  | .timedOut =>
    { name := "Website Tests".data, tests := [],
      start_time := start_time, end_time := end_time,
      total_duration := 300,
      passed_count := 0, failed_count := 0, skipped_count := 0 }
  | .launchError _ =>
    { name := "Website Tests".data, tests := [],
      start_time := start_time, end_time := end_time,
      total_duration := 0,
      passed_count := 0, failed_count := 1, skipped_count := 0 }

/-! Model of `TestGenerator.generate_test_code`
(`_generate_page_object`, `_generate_test_methods`,
`_combine_code_parts`).  The Jinja templates are fixed text: their
fragments are abbreviated here where nothing depends on the wording,
since every rendered byte is a function of the template constants and
the structured inputs below; the locator-catalogue and method-list
construction is modelled in full. -/

/-- A form field as `_generate_page_object` reads it
(`field.get('name', '')`, `field.get('id', '')`). -/
structure SFormField where
  name : PyStr
  id : PyStr
deriving DecidableEq, Repr

/-- A form as `_generate_page_object` reads it. -/
structure SForm where
  id : PyStr
  fields : List SFormField
deriving DecidableEq, Repr

/-- A button as `_generate_page_object` reads it. -/
structure SButton where
  id : PyStr
  text : PyStr
deriving DecidableEq, Repr

/-- A link as `_generate_page_object` reads it. -/
structure SLink where
  text : PyStr
deriving DecidableEq, Repr

/-- The scraped data consumed by the test-code generator. -/
structure ScrapedInput where
  url : PyStr
  forms : List SForm
  buttons : List SButton
  links : List SLink
deriving DecidableEq, Repr

/-- A locator-catalogue entry (`page_elements` item: name, `by`
strategy, locator). -/
structure PageElement where
  name : PyStr
  by_ : PyStr
  locator : PyStr
deriving DecidableEq, Repr

/-- Catalogue entries contributed by the forms
(`form_{id}` by ID, `field_{name or id}` by ID, else `field_{name}` by
NAME). -/
def formElements (forms : List SForm) : List PageElement :=
  forms.flatMap (fun form =>
    (if !form.id.isEmpty then
      [⟨"form_".data ++ form.id, "ID".data, form.id⟩]
     else []) ++
    form.fields.flatMap (fun field =>
      if !field.id.isEmpty then
        [⟨"field_".data ++ (if !field.name.isEmpty then field.name
            else field.id), "ID".data, field.id⟩]
      else if !field.name.isEmpty then
        [⟨"field_".data ++ field.name, "NAME".data, field.name⟩]
      else []))

/-- Catalogue entries contributed by the buttons (`button_{id}` by ID,
else a text-contains XPATH built from the literal button text). -/
def buttonElements (buttons : List SButton) : List PageElement :=
  buttons.flatMap (fun b =>
    if !b.id.isEmpty then
      [⟨"button_".data ++ b.id, "ID".data, b.id⟩]
    else if !b.text.isEmpty then
      [⟨"button_".data ++ pyLower (replaceSub [' '] ['_'] b.text),
        "XPATH".data,
        "//button[contains(text(), '".data ++ b.text ++ "')]".data⟩]
    else [])

/-- Catalogue entries contributed by the first five links (stripped
visible text, LINK_TEXT strategy). -/
def linkElements (links : List SLink) : List PageElement :=
  (links.take 5).flatMap (fun l =>
    let t := pyStrip l.text
    if !t.isEmpty then
      [⟨"link_".data ++ pyLower (replaceSub [' '] ['_'] t),
        "LINK_TEXT".data, t⟩]
    else [])

/-- The full `page_elements` list of `_generate_page_object`. -/
def pageElements (d : ScrapedInput) : List PageElement :=
  formElements d.forms ++ buttonElements d.buttons ++ linkElements d.links

/-- One rendered catalogue line of the page-object template
(`{{ element.name|upper }} = (By.{{ element.by }}, "{{ element.locator }}")`). -/
def renderElementLine (e : PageElement) : PyStr :=
  "    ".data ++ pyUpper e.name ++ " = (By.".data ++ e.by_ ++
    ", \"".data ++ e.locator ++ "\")\n".data

/-- The fixed page-object methods block (`fill_form`, `click_button`,
`click_link`, `verify_element_present`, `take_screenshot`); constant
template text, abbreviated. -/
def pageObjectFixedMethods : PyStr :=
  ("    def fill_form(self, form_data): ...\n" ++
   "    def click_button(self, button_locator): ...\n" ++
   "    def click_link(self, link_text): ...\n" ++
   "    def verify_element_present(self, locator): ...\n" ++
   "    def take_screenshot(self, filename=None): ...\n").data

/-- Model of `_generate_page_object`: the rendered page-object module. -/
def generate_page_object (d : ScrapedInput) : PyStr :=
  "class WebsitePage:\n    \"\"\"Page Object for ".data ++ d.url ++
    "\"\"\"\n".data ++
  (pageElements d).flatMap renderElementLine ++
  "    def load_page(self):\n        self.driver.get(\"".data ++ d.url ++
    "\")\n".data ++
  pageObjectFixedMethods

/-- A rendered test-method record (`test_methods` item). -/
structure TestMethod where
  method_name : PyStr
  description : PyStr
  priority : PyStr
  test_type : PyStr
  tags : List PyStr
  code : PyStr
deriving DecidableEq, Repr

/-- The `test_methods` list of `_generate_test_methods`: one method per
scenario of every feature, in order. -/
def testMethodsOf (features : List BDDFeature) : List TestMethod :=
  features.flatMap (fun feature => feature.scenarios.map (fun scenario =>
    { method_name := "test_".data ++ clean_method_name scenario.scenario,
      description := scenario.scenario,
      priority := scenario.priority,
      test_type := scenario.test_type,
      tags := scenario.tags,
      code := generate_test_steps scenario }))

/-- One rendered test method of the test-methods template. -/
def renderTestMethod (m : TestMethod) : PyStr :=
  "    @pytest.mark.".data ++ m.priority ++
    "\n    @pytest.mark.".data ++ m.test_type ++ "\n".data ++
  m.tags.flatMap (fun t => "    @pytest.mark.".data ++ t ++ "\n".data) ++
  "    def ".data ++ m.method_name ++
    "(self, page):\n        \"\"\"".data ++ m.description ++
    "\"\"\"\n".data ++
  m.code ++ "\n".data

/-- Model of `_generate_test_methods`: the rendered test module (fixed
fixture header, then the methods). -/
def generate_test_methods (features : List BDDFeature) : PyStr :=
  "import pytest\n\nclass TestWebsite:\n    ...fixtures...\n".data ++
  (testMethodsOf features).flatMap renderTestMethod

/-- Model of `_combine_code_parts`: the timestamp read from the clock is
an explicit argument — the only input that is not a function of the BDD
features and scraped data. -/
def combine_code_parts (page_object_code test_methods_code timestamp : PyStr) :
    PyStr :=
  "\n# Auto-generated test code\n# Generated at: ".data ++ timestamp ++
  "\n\n".data ++ page_object_code ++ "\n\n".data ++ test_methods_code ++
  "\n".data

/-- Model of `TestGenerator.generate_test_code`. -/
def generate_test_code (features : List BDDFeature) (d : ScrapedInput)
    (timestamp : PyStr) : PyStr :=
  combine_code_parts (generate_page_object d) (generate_test_methods features)
    timestamp

/-! Model of `WebScraper.scrape_website` (`web_scraper.py`).  The
BeautifulSoup document is an external collaborator; each `_extract_*`
call is modelled by its outcome, an `Except` value: `.error` models an
exception raised while scanning that element kind.  `scrape_website`
evaluates the extractors in source order inside one `try` whose
`except` arms log and re-`raise`. -/

/-- A form-field record of `_extract_forms`. -/
structure ExtractedFormField where
  tag : PyStr
  fieldType : PyStr
  name : PyStr
  id : PyStr
  placeholder : PyStr
  required : Bool
  value : PyStr
  classes : List PyStr
  options : List (PyStr × PyStr)
deriving DecidableEq, Repr

/-- A form record of `_extract_forms`. -/
structure ExtractedForm where
  id : PyStr
  name : PyStr
  action : PyStr
  method : PyStr
  enctype : PyStr
  fields : List ExtractedFormField
deriving DecidableEq, Repr

/-- A link record of `_extract_links`. -/
structure ExtractedLink where
  text : PyStr
  href : PyStr
  absolute_url : PyStr
  title : PyStr
  classes : List PyStr
  id : PyStr
  target : PyStr
  is_external : Bool
deriving DecidableEq, Repr

/-- A button record of `_extract_buttons`. -/
structure ExtractedButton where
  tag : PyStr
  btype : PyStr
  text : PyStr
  id : PyStr
  name : PyStr
  classes : List PyStr
  onclick : PyStr
  disabled : Bool
deriving DecidableEq, Repr

/-- An input record of `_extract_inputs`. -/
structure ExtractedInput where
  itype : PyStr
  name : PyStr
  id : PyStr
  placeholder : PyStr
  value : PyStr
  classes : List PyStr
  required : Bool
  readonly : Bool
  disabled : Bool
  maxlength : PyStr
  minlength : PyStr
  pattern : PyStr
deriving DecidableEq, Repr

/-- An image record of `_extract_images`. -/
structure ExtractedImage where
  src : PyStr
  absolute_url : PyStr
  alt : PyStr
  title : PyStr
  classes : List PyStr
  id : PyStr
  width : PyStr
  height : PyStr
deriving DecidableEq, Repr

/-- A meta-tag record of `_extract_meta_tags`. -/
structure ExtractedMeta where
  name : PyStr
  content : PyStr
  property : PyStr
  charset : PyStr
  http_equiv : PyStr
deriving DecidableEq, Repr

/-- Model of the `ScrapedData` pydantic model (the `page_structure`
dictionary carried as an association list). -/
structure ScrapedData where
  url : PyStr
  title : PyStr
  html_content : PyStr
  forms : List ExtractedForm
  links : List ExtractedLink
  buttons : List ExtractedButton
  inputs : List ExtractedInput
  images : List ExtractedImage
  meta_tags : List ExtractedMeta
  page_structure : List (PyStr × PyStr)
  load_time : ℚ
  status_code : Nat
deriving DecidableEq, Repr

/-- `true` on `.ok`, `false` on `.error`. -/
def exceptIsOk {ε α : Type} : Except ε α → Bool
  | .ok _ => true
  | .error _ => false

/-- Model of `WebScraper.scrape_website`: the extractor calls are
evaluated in the source's argument order (title, forms, links, buttons,
inputs, images, meta tags, page structure); the first exception
propagates — the enclosing `except` arms only log and re-`raise`. -/
def scrape_website (url html : PyStr)
    (title : Except PyStr PyStr)
    (forms : Except PyStr (List ExtractedForm))
    (links : Except PyStr (List ExtractedLink))
    (buttons : Except PyStr (List ExtractedButton))
    (inputs : Except PyStr (List ExtractedInput))
    (images : Except PyStr (List ExtractedImage))
    (metas : Except PyStr (List ExtractedMeta))
    (structureInfo : Except PyStr (List (PyStr × PyStr)))
    (load_time : ℚ) : Except PyStr ScrapedData :=
  match title with
  | .error e => .error e
  | .ok t =>
    match forms with
    | .error e => .error e
    | .ok f =>
      match links with
      | .error e => .error e
      | .ok l =>
        match buttons with
        | .error e => .error e
        | .ok b =>
          match inputs with
          | .error e => .error e
          | .ok i =>
            match images with
            | .error e => .error e
            | .ok im =>
              match metas with
              | .error e => .error e
              | .ok m =>
                match structureInfo with
                | .error e => .error e
                | .ok st =>
                  .ok { url := url, title := t, html_content := html,
                        forms := f, links := l, buttons := b, inputs := i,
                        images := im, meta_tags := m, page_structure := st,
                        load_time := load_time, status_code := 200 }

/-! Model of `AIClient.get_available_models` (`ai_client.py`). -/

/-- The parsed JSON body of the `/api/tags` response: `malformed` models
a body `response.json()` raises on; otherwise `models` is the value of
the `models` key (`none` when absent — `result.get('models', [])`), each
entry's `name` key possibly missing. -/
inductive TagsBody where
  | malformed
  | json (models : Option (List (Option PyStr)))
deriving DecidableEq, Repr

/-- The HTTP boundary of `get_available_models`: a transport error or a
response with a status code and a body. -/
inductive HttpResult (β : Type) where
  | transportError (msg : PyStr)
  | response (status : Nat) (body : β)
deriving DecidableEq, Repr

/-- `[model['name'] for model in models]`: `none` models the `KeyError`
raised at the first entry without a `name`. -/
def allNames : List (Option PyStr) → Option (List PyStr)
  | [] => some []
  | none :: _ => none
  | some n :: rest => (allNames rest).map (n :: ·)

/-- Model of `AIClient.get_available_models`: `raise_for_status` raises
outside 2xx, `response.json()` raises on a malformed body, the list
comprehension raises on a nameless entry — and the enclosing
`except Exception` turns every failure into `[]`. -/
def get_available_models (r : HttpResult TagsBody) : List PyStr :=
  match r with
  | .transportError _ => []
  | .response status body =>
    if 200 ≤ status ∧ status ≤ 299 then
      match body with
      | .malformed => []
      | .json none => []
      | .json (some entries) =>
        match allNames entries with
        | some names => names
        | none => []
    else []

/-- Concrete run of `scrape_website` in which only the forms extractor
fails: every other extractor returns a non-trivial (or empty) list. -/
def scrapeFormsFailExample : Except PyStr ScrapedData :=
  scrape_website "http://example.com".data "<html></html>".data
    (.ok "Example".data)
    (.error "forms extraction failed".data)
    (.ok [⟨"Anasayfa".data, "/".data, "http://example.com/".data, "".data,
      [], "".data, "".data, false⟩])
    (.ok [⟨"button".data, "button".data, "Login".data, "".data, "".data,
      [], "".data, false⟩])
    (.ok []) (.ok []) (.ok []) (.ok []) 1

end GMeter

namespace GMeter

/-! Character-level lemmas. -/

theorem charToNat_ofNat_of_lt {n : Nat} (h : n < 55296) :
    (Char.ofNat n).toNat = n := by
  rw [Char.ofNat, dif_pos (Or.inl h)]
  simp [Char.toNat, Char.ofNatAux, UInt32.toNat]

theorem toLower_wordChar {c : Char} (h : wordChar c = true) :
    identBodyChar (Char.toLower c) = true := by
  simp only [wordChar, Bool.or_eq_true, Bool.and_eq_true, decide_eq_true_eq,
    beq_iff_eq] at h
  simp only [identBodyChar, Char.toLower, Bool.or_eq_true, Bool.and_eq_true,
    decide_eq_true_eq, beq_iff_eq]
  split
  · next h1 =>
    have hv : (Char.ofNat (c.toNat + 32)).toNat = c.toNat + 32 :=
      charToNat_ofNat_of_lt (by omega)
    rw [hv]
    omega
  · next h1 => omega

theorem pyIsDigit_toLower (c : Char) :
    pyIsDigit (Char.toLower c) = true ↔ pyIsDigit c = true := by
  simp only [pyIsDigit, Char.toLower, Bool.and_eq_true, decide_eq_true_eq]
  split
  · next h1 =>
    have hv : (Char.ofNat (c.toNat + 32)).toNat = c.toNat + 32 :=
      charToNat_ofNat_of_lt (by omega)
    rw [hv]
    omega
  · next h1 => exact Iff.rfl

/-! Lemmas about the `_clean_method_name` pipeline. -/

theorem mem_underscoreNonWord {l : PyStr} {c : Char}
    (h : c ∈ underscoreNonWord l) : wordChar c = true := by
  simp only [underscoreNonWord, List.mem_map] at h
  obtain ⟨a, _, ha⟩ := h
  by_cases hw : wordChar a = true
  · rw [← ha, if_pos hw]; exact hw
  · rw [← ha, if_neg hw]; decide

theorem mem_collapseUnderscores {l : PyStr} {c : Char}
    (h : c ∈ collapseUnderscores l) : c ∈ l := by
  induction l with
  | nil => simp [collapseUnderscores] at h
  | cons a rest ih =>
    rw [collapseUnderscores] at h
    split at h
    · exact List.mem_cons_of_mem a (ih h)
    · rcases List.mem_cons.mp h with h1 | h1
      · simp [h1]
      · exact List.mem_cons_of_mem a (ih h1)

theorem rdropWhileP_isPrefix (p : Char → Bool) (l : PyStr) :
    (rdropWhileP p l) <+: l := by
  induction l with
  | nil => simp [rdropWhileP]
  | cons c rest ih =>
    rw [rdropWhileP]
    cases hr : rdropWhileP p rest with
    | nil =>
      by_cases hp : p c = true
      · refine ⟨c :: rest, ?_⟩
        simp [hp]
      · refine ⟨rest, ?_⟩
        simp [hp]
    | cons r rs =>
      rw [hr] at ih
      obtain ⟨t, ht⟩ := ih
      exact ⟨t, by simp [ht]⟩

theorem dropWhile_head_false (p : Char → Bool) (l : PyStr) {c : Char}
    {t : PyStr} (h : l.dropWhile p = c :: t) : p c = false := by
  induction l with
  | nil => simp at h
  | cons a rest ih =>
    rw [List.dropWhile_cons] at h
    split at h
    · exact ih h
    · next hp =>
      obtain ⟨rfl, rfl⟩ : a = c ∧ rest = t := by
        constructor <;> [exact (List.cons.injEq .. ▸ h).1;
          exact (List.cons.injEq .. ▸ h).2]
      simpa using hp

theorem stripUnderscores_subset {l : PyStr} {c : Char}
    (h : c ∈ stripUnderscores l) : c ∈ l := by
  have h1 := (rdropWhileP_isPrefix (· == '_') (l.dropWhile (· == '_'))).subset h
  exact (List.dropWhile_sublist (l := l) (· == '_')).subset h1

theorem stripUnderscores_head_ne {l : PyStr} {c : Char} {t : PyStr}
    (h : stripUnderscores l = c :: t) : (c == '_') = false := by
  have hp := rdropWhileP_isPrefix (· == '_') (l.dropWhile (· == '_'))
  rw [stripUnderscores] at h
  rw [h] at hp
  obtain ⟨u, hu⟩ := hp
  have hu' : l.dropWhile (· == '_') = c :: (t ++ u) := by
    rw [← hu]; simp
  exact dropWhile_head_false (· == '_') l hu'

theorem char_eq_underscore_of_toNat {c : Char} (h : c.toNat = 95) :
    c = '_' := by
  have h0 := Char.ofNat_toNat c
  rw [h] at h0
  rw [← h0]

theorem toLower_headChar {c : Char} (hw : wordChar c = true)
    (hd : ¬ pyIsDigit c = true) :
    identHeadChar (Char.toLower c) = true := by
  simp only [wordChar, Bool.or_eq_true, Bool.and_eq_true, decide_eq_true_eq,
    beq_iff_eq] at hw
  simp only [pyIsDigit, Bool.and_eq_true, decide_eq_true_eq] at hd
  simp only [identHeadChar, Char.toLower, Bool.or_eq_true, Bool.and_eq_true,
    decide_eq_true_eq, beq_iff_eq]
  split
  · next h1 =>
    have hv : (Char.ofNat (c.toNat + 32)).toNat = c.toNat + 32 :=
      charToNat_ofNat_of_lt (by omega)
    rw [hv]
    omega
  · next h1 => omega

theorem matchesIdentRegex_append {a b : PyStr}
    (ha : matchesIdentRegex a = true)
    (hb : ∀ x ∈ b, identBodyChar x = true) :
    matchesIdentRegex (a ++ b) = true := by
  cases a with
  | nil => simp [matchesIdentRegex] at ha
  | cons c t =>
    simp only [matchesIdentRegex, Bool.and_eq_true, List.all_eq_true] at ha
    simp only [List.cons_append, matchesIdentRegex, Bool.and_eq_true,
      List.all_eq_true]
    refine ⟨ha.1, ?_⟩
    intro x hx
    rcases List.mem_append.mp hx with h | h
    · exact ha.2 x h
    · exact hb x h

theorem mem_cleaned_wordChar {name : PyStr} {c : Char}
    (h : c ∈ stripUnderscores (collapseUnderscores
      (underscoreNonWord (stripQuoteChars name)))) : wordChar c = true :=
  mem_underscoreNonWord (mem_collapseUnderscores (stripUnderscores_subset h))

/-- C4: for every scenario title the cleaned identifier is non-empty,
matches the anchored regex `^[a-z_][a-z0-9_]*$`, and agrees with the
pipeline in the claim's order (lowercasing before the empty/digit-head
prepend step). -/
theorem clean_method_name_valid (name : PyStr) :
    clean_method_name name ≠ [] ∧
    matchesIdentRegex (clean_method_name name) = true ∧
    clean_method_name name = clean_method_name_specOrder name := by
  have hmain : matchesIdentRegex (clean_method_name name) = true := by
    unfold clean_method_name
    cases hm : stripUnderscores (collapseUnderscores
        (underscoreNonWord (stripQuoteChars name))) with
    | nil => decide
    | cons c t =>
      have hcw : wordChar c = true :=
        mem_cleaned_wordChar (by rw [hm]; exact List.mem_cons_self c t)
      have htw : ∀ x ∈ t, wordChar x = true := fun x hx =>
        mem_cleaned_wordChar (by rw [hm]; exact List.mem_cons_of_mem c hx)
      simp only [prependIfInvalid]
      by_cases hd : pyIsDigit c = true
      · rw [if_pos hd]
        rw [show pyLower ("test_case_".data ++ c :: t) =
            "test_case_".data ++ pyLower (c :: t) from by
          simp only [pyLower, List.map_append]
          rfl]
        refine matchesIdentRegex_append (by decide) ?_
        intro x hx
        simp only [pyLower, List.mem_map] at hx
        obtain ⟨y, hy, rfl⟩ := hx
        rcases List.mem_cons.mp hy with rfl | hy2
        · exact toLower_wordChar hcw
        · exact toLower_wordChar (htw y hy2)
      · rw [if_neg hd]
        simp only [pyLower, List.map_cons, matchesIdentRegex,
          Bool.and_eq_true, List.all_eq_true]
        refine ⟨toLower_headChar hcw hd, ?_⟩
        intro x hx
        simp only [List.mem_map] at hx
        obtain ⟨y, hy, rfl⟩ := hx
        exact toLower_wordChar (htw y hy)
  refine ⟨?_, hmain, ?_⟩
  · intro hnil
    rw [hnil] at hmain
    simp [matchesIdentRegex] at hmain
  · unfold clean_method_name clean_method_name_specOrder
    cases hm : stripUnderscores (collapseUnderscores
        (underscoreNonWord (stripQuoteChars name))) with
    | nil => decide
    | cons c t =>
      simp only [pyLower, List.map_cons, prependIfInvalid]
      by_cases hd : pyIsDigit c = true
      · rw [if_pos hd, if_pos ((pyIsDigit_toLower c).mpr hd)]
        simp only [List.map_append, List.map_cons]
        rfl
      · rw [if_neg hd, if_neg (fun h2 => hd ((pyIsDigit_toLower c).mp h2))]
        rfl

/-! Lemmas for the BDD scenario generators. -/

theorem formScenariosLoop_length (forms : List FormInfo) :
    ∀ acc, (formScenariosLoop forms acc).length =
      acc.length + (forms.map (fun f => if f.fields.isEmpty then 0
        else 1 + f.fields.countP (·.required))).sum := by
  induction forms with
  | nil => intro acc; simp [formScenariosLoop]
  | cons f rest ih =>
    intro acc
    rw [formScenariosLoop]
    split
    · next hf =>
      rw [ih, List.map_cons, List.sum_cons, if_pos hf]
      simp
    · next hf =>
      rw [ih, List.map_cons, List.sum_cons, if_neg hf]
      simp only [List.length_append, List.length_cons, List.length_map]
      rw [List.countP_eq_length_filter]
      omega

/-- C3: every form with at least one field contributes exactly one
positive-submission scenario plus one negative scenario per required
field (in field order); a form with no fields contributes nothing. -/
theorem generate_form_scenarios_spec (forms : List FormInfo) (f : FormInfo) :
    (generate_form_scenarios forms).length =
      (forms.map (fun g => if g.fields.isEmpty then 0
        else 1 + g.fields.countP (·.required))).sum ∧
    (f.fields ≠ [] →
      generate_form_scenarios [f] =
        positiveFormScenario (f.id.getD "form_0".data) ::
          (f.fields.filter (·.required)).map
            (fun fld => negativeFormScenario (f.id.getD "form_0".data) fld.name)) ∧
    (f.fields = [] → generate_form_scenarios [f] = []) := by
  refine ⟨?_, ?_, ?_⟩
  · rw [generate_form_scenarios, formScenariosLoop_length]
    simp
  · intro hne
    have hf : f.fields.isEmpty = false := by
      cases hfl : f.fields with
      | nil => exact absurd hfl hne
      | cons a t => rfl
    simp only [generate_form_scenarios, formScenariosLoop, hf,
      Bool.false_eq_true, if_false, List.nil_append, List.length_nil]
    rw [show ("form_".data ++ (toString (0 : Nat)).data) = "form_0".data
      from by decide]
  · intro hnil
    simp [generate_form_scenarios, formScenariosLoop, hnil]

/-- C3 witness: a concrete form with two fields, one required. -/
theorem generate_form_scenarios_spec_witness :
    (generate_form_scenarios [⟨some "login".data,
        [⟨"email".data, true⟩, ⟨"note".data, false⟩]⟩]).length = 2 ∧
    generate_form_scenarios [⟨some "login".data,
        [⟨"email".data, true⟩, ⟨"note".data, false⟩]⟩] =
      positiveFormScenario "login".data ::
        [negativeFormScenario "login".data "email".data] ∧
    generate_form_scenarios [(⟨some "login".data, []⟩ : FormInfo)] = [] := by
  refine ⟨?_, ?_, ?_⟩
  · have h := (generate_form_scenarios_spec [⟨some "login".data,
      [⟨"email".data, true⟩, ⟨"note".data, false⟩]⟩]
      ⟨some "login".data, [⟨"email".data, true⟩, ⟨"note".data, false⟩]⟩).1
    rw [h]
    decide
  · have h := (generate_form_scenarios_spec []
      ⟨some "login".data, [⟨"email".data, true⟩, ⟨"note".data, false⟩]⟩).2.1
      (by decide)
    rw [h]
    decide
  · exact (generate_form_scenarios_spec [] ⟨some "login".data, []⟩).2.2 rfl

/-- C5: the navigation generator emits one scenario per qualifying link
in input order, capped at the first five qualifying links; with 5
internal and 10 external links it emits exactly 5. -/
theorem generate_navigation_scenarios_spec (links : List LinkInfo) :
    (generate_navigation_scenarios links).length =
      min 5 (links.countP qualifiesLink) ∧
    generate_navigation_scenarios links =
      ((links.filter qualifiesLink).take 5).map navScenario ∧
    (generate_navigation_scenarios
      (List.replicate 5 ⟨"/a".data, false, "x".data⟩ ++
       List.replicate 10 ⟨"http://e".data, true, "y".data⟩)).length = 5 := by
  refine ⟨?_, rfl, by decide⟩
  rw [generate_navigation_scenarios, List.length_map, List.length_take,
    List.countP_eq_length_filter]

/-! Lemmas for `_parse_scenario_block`. -/

theorem classifyLine_skip {st : ParseState} {l : PyStr} (hcur : st.cur = none)
    (h : startsStep (pyStrip l) = false) : classifyLine st l = st := by
  simp only [startsStep, Bool.or_eq_false_iff] at h
  obtain ⟨⟨h1, h2⟩, h3⟩ := h
  simp [classifyLine, h1, h2, h3, hcur]

theorem foldl_classify_skip (lines : List PyStr)
    (h : ∀ l ∈ lines, startsStep (pyStrip l) = false) :
    ∀ st : ParseState, st.cur = none → lines.foldl classifyLine st = st := by
  induction lines with
  | nil => intro st _; rfl
  | cons a t ih =>
    intro st hcur
    rw [List.foldl_cons, classifyLine_skip hcur (h a (List.mem_cons_self a t))]
    exact ih (fun l hl => h l (List.mem_cons_of_mem a hl)) st hcur

/-- C9: a scenario block with non-blank content always parses to a
scenario (never discarded) whose title is the first stripped line, with
tags `['@automated']`, priority `medium`, type `functional`; when no line
is a recognisable step starter all three step lists are empty. -/
theorem parse_scenario_block_spec (block feature : PyStr)
    (h : scenLines block ≠ []) :
    ∃ s, parse_scenario_block block feature = some s ∧
      s.feature = feature ∧
      (∀ name rest, scenLines block = name :: rest → s.scenario = name) ∧
      s.tags = ["@automated".data] ∧
      s.priority = "medium".data ∧
      s.test_type = "functional".data ∧
      ((∀ l ∈ (scenLines block).tail, startsStep (pyStrip l) = false) →
        s.given = [] ∧ s.whens = [] ∧ s.thens = []) := by
  cases hl : scenLines block with
  | nil => exact absurd hl h
  | cons name rest =>
    refine ⟨⟨feature, name,
      (rest.foldl classifyLine ⟨[], [], [], none⟩).given,
      (rest.foldl classifyLine ⟨[], [], [], none⟩).whens,
      (rest.foldl classifyLine ⟨[], [], [], none⟩).thens,
      ["@automated".data], "medium".data, "functional".data⟩,
      ?_, rfl, ?_, rfl, rfl, rfl, ?_⟩
    · simp only [parse_scenario_block, hl]
    · intro nm rs hnr
      exact (List.cons.inj hnr).1
    · intro hns
      have hns' : ∀ l ∈ rest, startsStep (pyStrip l) = false := by
        simpa using hns
      rw [foldl_classify_skip rest hns' ⟨[], [], [], none⟩ rfl]
      exact ⟨rfl, rfl, rfl⟩

/-- C9 witness: a block whose only content is a title line and a free
text line parses to a scenario with empty step lists. -/
theorem parse_scenario_block_spec_witness :
    ∃ s, parse_scenario_block "Başlık\nserbest metin".data "F".data = some s ∧
      s.feature = "F".data ∧
      (∀ name rest, scenLines "Başlık\nserbest metin".data = name :: rest →
        s.scenario = name) ∧
      s.tags = ["@automated".data] ∧
      s.priority = "medium".data ∧
      s.test_type = "functional".data ∧
      ((∀ l ∈ (scenLines "Başlık\nserbest metin".data).tail,
          startsStep (pyStrip l) = false) →
        s.given = [] ∧ s.whens = [] ∧ s.thens = []) :=
  parse_scenario_block_spec "Başlık\nserbest metin".data "F".data (by decide)

/-! Theorems about `_generate_test_steps`. -/

/-- C2 counterexample: a scenario with an empty Then list yields an empty
body for the Then section (no placeholder assertion at all), and a
scenario with one Then step yields exactly the two comment lines — no
"page still responsive" assertion is appended after the final Then (the
emitted code contains no `assert` anywhere). -/
theorem generate_test_steps_counterexample :
    generate_test_steps ⟨"F".data, "S".data, [], [], [], ["@automated".data],
      "medium".data, "functional".data⟩ = [] ∧
    generate_test_steps ⟨"F".data, "S".data, [], [],
      ["Sayfa başarıyla görüntülenir".data], ["@automated".data],
      "medium".data, "functional".data⟩ =
      "            # Then: Sayfa başarıyla görüntülenir\n            # Then: Beklenen işlem yapılır".data ∧
    containsSub "assert".data
      (generate_test_steps ⟨"F".data, "S".data, [], [],
        ["Sayfa başarıyla görüntülenir".data], ["@automated".data],
        "medium".data, "functional".data⟩) = false := by
  refine ⟨rfl, by decide, by decide⟩

/-- C2 amended: every Then step contributes exactly two comment lines
(the step echo and the fixed generic comment) at the end of the method
body; no assertion is emitted for the final Then, and an empty Then list
contributes nothing (no placeholder). -/
theorem generate_test_steps_then_section (s : BDDScenario) :
    testStepLines s = testStepLines { s with thens := [] } ++
      s.thens.flatMap thenStepLines ∧
    (∀ l ∈ s.thens.flatMap thenStepLines, "            # Then: ".data <+: l) ∧
    (s.thens = [] → s.thens.flatMap thenStepLines = []) ∧
    generate_test_steps s = List.intercalate ['\n'] (testStepLines s) := by
  refine ⟨?_, ?_, ?_, rfl⟩
  · simp [testStepLines, List.append_assoc]
  · intro l hl
    rw [List.mem_flatMap] at hl
    obtain ⟨st, _, hm⟩ := hl
    rcases List.mem_cons.mp hm with rfl | hm2
    · exact ⟨st, rfl⟩
    · rcases List.mem_singleton.mp hm2 with rfl
      decide
  · intro h
    rw [h]
    rfl

/-- C2 amended, witness at a concrete two-step scenario. -/
theorem generate_test_steps_then_section_witness :
    testStepLines ⟨"F".data, "S".data, [], [],
        ["A".data, "B".data], [], "medium".data, "functional".data⟩ =
      testStepLines ⟨"F".data, "S".data, [], [], [], [],
        "medium".data, "functional".data⟩ ++
        (["A".data, "B".data].flatMap thenStepLines) ∧
    (∀ l ∈ (["A".data, "B".data].flatMap thenStepLines),
      "            # Then: ".data <+: l) :=
  let s : BDDScenario := ⟨"F".data, "S".data, [], [],
    ["A".data, "B".data], [], "medium".data, "functional".data⟩
  ⟨(generate_test_steps_then_section s).1,
   (generate_test_steps_then_section s).2.1⟩

/-! Theorems about `_parse_test_results` and `run_tests`. -/

/-- C6: the result parser never returns an empty list; when no line of
the combined output qualifies as a test result line it returns exactly
the synthetic `no_tests_found` skipped outcome with duration 0. -/
theorem parse_test_results_spec (stdout stderr : PyStr) :
    parse_test_results stdout stderr ≠ [] ∧
    ((∀ l ∈ splitNl (stdout ++ '\n' :: stderr), isResultLine l = false) →
      parse_test_results stdout stderr = [noTestsFound]) := by
  constructor
  · rw [parse_test_results]
    split
    · simp
    · next h =>
      intro hc
      rw [hc] at h
      simp at h
  · intro h
    have hz : (splitNl (stdout ++ '\n' :: stderr)).filterMap parseResultLine
        = [] := by
      rw [List.filterMap_eq_nil_iff]
      intro l hl
      rw [parseResultLine, if_neg]
      simp [h l hl]
    rw [parse_test_results]
    simp only [hz, List.isEmpty_nil, if_true]

/-- C6 witness: pytest output with no result line yields the synthetic
outcome. -/
theorem parse_test_results_spec_witness :
    parse_test_results "collected 0 items".data [] = [noTestsFound] :=
  (parse_test_results_spec "collected 0 items".data []).2 (by decide)

/-- C7 counterexample: on timeout the suite's outcome list is empty but
its `total_duration` is the positive literal 300, not a zero-or-negative
sentinel. -/
theorem run_tests_timeout_counterexample :
    (run_tests .timedOut 0 5).tests = [] ∧
    (run_tests .timedOut 0 5).total_duration = 300 ∧
    ¬ (run_tests .timedOut 0 5).total_duration ≤ 0 := by
  refine ⟨rfl, rfl, by decide⟩

/-- C7 amended: a timeout yields an empty outcome list with
`total_duration = 300` (the timeout budget); a launch failure yields an
empty outcome list with `total_duration = 0` and `failed_count = 1`;
both paths return a suite instead of raising. -/
theorem run_tests_failure_paths (s e : ℚ) (msg : PyStr) :
    (run_tests .timedOut s e).tests = [] ∧
    (run_tests .timedOut s e).total_duration = 300 ∧
    (run_tests (.launchError msg) s e).tests = [] ∧
    (run_tests (.launchError msg) s e).total_duration = 0 ∧
    (run_tests (.launchError msg) s e).failed_count = 1 :=
  ⟨rfl, rfl, rfl, rfl, rfl⟩

/-! Theorems about `generate_test_code`, `scrape_website` and
`get_available_models`. -/

/-- C8: for fixed features and scraped data the generated code is a
fixed function of the inputs except for the embedded timestamp: two runs
differ exactly at the timestamp slot after the fixed
`# Generated at: ` header. -/
theorem generate_test_code_deterministic (features : List BDDFeature)
    (d : ScrapedInput) (t1 t2 : PyStr) :
    ∃ pre post : PyStr,
      generate_test_code features d t1 = pre ++ t1 ++ post ∧
      generate_test_code features d t2 = pre ++ t2 ++ post ∧
      pre = "\n# Auto-generated test code\n# Generated at: ".data := by
  refine ⟨"\n# Auto-generated test code\n# Generated at: ".data,
    "\n\n".data ++ generate_page_object d ++ "\n\n".data ++
      generate_test_methods features ++ "\n".data, ?_, ?_, rfl⟩ <;>
  · rw [generate_test_code, combine_code_parts]
    simp [List.append_assoc]

/-- C1 counterexample: with every extractor succeeding except forms,
`scrape_website` propagates the error — it does not return a snapshot
with an empty forms list and the other element lists populated. -/
theorem scrape_website_counterexample :
    scrapeFormsFailExample = .error "forms extraction failed".data ∧
    exceptIsOk scrapeFormsFailExample = false :=
  ⟨rfl, rfl⟩

/-- C1 amended: a failure while scanning one element kind is logged and
re-raised, aborting the whole extraction: the error of the first failing
extractor (in source evaluation order) propagates out of
`scrape_website`, and a snapshot is returned exactly when every
extractor succeeded. -/
theorem scrape_website_error_propagation (url html : PyStr)
    (title : Except PyStr PyStr)
    (forms : Except PyStr (List ExtractedForm))
    (links : Except PyStr (List ExtractedLink))
    (buttons : Except PyStr (List ExtractedButton))
    (inputs : Except PyStr (List ExtractedInput))
    (images : Except PyStr (List ExtractedImage))
    (metas : Except PyStr (List ExtractedMeta))
    (structureInfo : Except PyStr (List (PyStr × PyStr)))
    (lt : ℚ) :
    (∀ t e, title = .ok t → forms = .error e →
      scrape_website url html title forms links buttons inputs images metas
        structureInfo lt = .error e) ∧
    exceptIsOk (scrape_website url html title forms links buttons inputs
        images metas structureInfo lt) =
      (exceptIsOk title && exceptIsOk forms && exceptIsOk links &&
       exceptIsOk buttons && exceptIsOk inputs && exceptIsOk images &&
       exceptIsOk metas && exceptIsOk structureInfo) := by
  constructor
  · rintro t e rfl rfl
    rfl
  · cases title <;> cases forms <;> cases links <;> cases buttons <;>
      cases inputs <;> cases images <;> cases metas <;>
      cases structureInfo <;> rfl

/-- C1 amended, witness: the forms error propagates at a concrete
input. -/
theorem scrape_website_error_propagation_witness :
    scrape_website "u".data "h".data (.ok "t".data) (.error "boom".data)
      (.ok []) (.ok []) (.ok []) (.ok []) (.ok []) (.ok []) 0 =
      .error "boom".data :=
  (scrape_website_error_propagation "u".data "h".data (.ok "t".data)
    (.error "boom".data) (.ok []) (.ok []) (.ok []) (.ok []) (.ok [])
    (.ok []) 0).1 "t".data "boom".data rfl rfl

theorem allNames_of_mem_none {entries : List (Option PyStr)}
    (h : none ∈ entries) : allNames entries = none := by
  induction entries with
  | nil => simp at h
  | cons a rest ih =>
    cases a with
    | none => rfl
    | some n =>
      rcases List.mem_cons.mp h with h1 | h1
      · exact absurd h1.symm (Option.some_ne_none n)
      · rw [allNames, ih h1]
        rfl

theorem allNames_map_some (ns : List PyStr) :
    allNames (ns.map some) = some ns := by
  induction ns with
  | nil => rfl
  | cons n rest ih => rw [List.map_cons, allNames, ih]; rfl

/-- C10: `get_available_models` returns `[]` on every failure — a
transport error, a non-2xx status, a malformed body, or an entry without
a name — and returns the listed names on a well-formed 2xx response. -/
theorem get_available_models_safe (msg : PyStr) (status : Nat)
    (body : TagsBody) (entries : List (Option PyStr)) (ns : List PyStr) :
    get_available_models (.transportError msg) = [] ∧
    (¬ (200 ≤ status ∧ status ≤ 299) →
      get_available_models (.response status body) = []) ∧
    get_available_models (.response status .malformed) = [] ∧
    (none ∈ entries →
      get_available_models (.response status (.json (some entries))) = []) ∧
    (200 ≤ status ∧ status ≤ 299 →
      get_available_models (.response status (.json (some (ns.map some)))) = ns) := by
  refine ⟨rfl, ?_, ?_, ?_, ?_⟩
  · intro h
    simp only [get_available_models]
    rw [if_neg h]
  · simp only [get_available_models]
    split <;> rfl
  · intro h
    simp only [get_available_models]
    split
    · rw [allNames_of_mem_none h]
    · rfl
  · intro h
    simp only [get_available_models]
    rw [if_pos h, allNames_map_some]

/-- C10 witness: a 404 response and a 200 response with a nameless entry
both yield `[]`; a well-formed 200 response yields the names. -/
theorem get_available_models_safe_witness :
    get_available_models (.response 404 (.json (some [some "m".data]))) = [] ∧
    get_available_models (.response 200 (.json (some [none]))) = [] ∧
    get_available_models (.response 200 (.json (some [some "llama2".data])))
      = ["llama2".data] :=
  ⟨(get_available_models_safe [] 404 (.json (some [some "m".data])) [] []).2.1
      (by decide),
   (get_available_models_safe [] 200 (.json none) [none] []).2.2.2.1
      (by simp),
   (get_available_models_safe [] 200 (.json none) [] ["llama2".data]).2.2.2.2
      (by decide)⟩

end GMeter
